import Mathlib

/-!
Verification of the Dreame mower device protocol/state engine.

The definitions below are a shallow embedding of the Python sources:
  custom_components/dreame_mower/dreame/property/pose_coverage.py
  custom_components/dreame_mower/dreame/property/mower_control.py
  custom_components/dreame_mower/dreame/device.py

Python values passed to the decoders are modelled by the inductive `JValue`
(ints, bools, strings, lists, dicts, null).  Machine floats in the source
(areas, progress percentages) are modelled exactly over `ℚ`: the source only
divides, multiplies and compares, and every claim under consideration compares
the stored values against the same arithmetic expression, so the rational
model is faithful for these properties.  Fallible parsing is modelled with
`Option`/`Bool` results; a Python exception that is caught by a handler is
modelled by the value the handler returns on that path.
-/

namespace DreameMower

/-- Model of a JSON-ish Python value as delivered by the MQTT/REST transport.
Numeric strings are not modelled as convertible to int (int("5") succeeds in
Python but no claim depends on that coercion). -/
inductive JValue where
  | jint (n : Int)
  | jbool (b : Bool)
  | jstr (s : String)
  | jlist (xs : List JValue)
  | jdict (fields : List (String × JValue))
  | jnull

/-- Conversion `int(value)` for the modelled value space: succeeds on ints and bools,
raises (returns `none`) otherwise. -/
def toInt : JValue → Option Int
  | .jint n => some n
  | .jbool b => some (if b then 1 else 0)
  | _ => none

/-- Conversion `bool(value)`: total in Python (truthiness). -/
def toBool : JValue → Bool
  | .jint n => n ≠ 0
  | .jbool b => b
  | .jstr s => s ≠ ""
  | .jlist xs => ¬xs.isEmpty
  | .jdict fs => ¬fs.isEmpty
  | .jnull => false

/-- Conversion `str(value)`; the rendering of containers is elided (no claim reads it). -/
def toStr : JValue → String
  | .jstr s => s
  | .jint n => toString n
  | .jbool b => if b then ("True") else ("False")
  | _ => ("")

/-! ## Pose/coverage decoder (pose_coverage.py) -/

/-- One record of `_path_history` (the `timestamp` key is always `None` in
`_parse_full_format` and is omitted). -/
structure PathPoint where
  x : Int
  y : Int
  heading : Int
  segment : Int
deriving DecidableEq

/-- State of `PoseCoverageHandler` (pose_coverage.py `__init__`). -/
structure PoseCoverageState where
  currentAreaSqm : Option ℚ
  totalAreaSqm : Option ℚ
  progressPercent : Option ℚ
  missionCompleted : Bool
  xCoordinate : Option Int
  yCoordinate : Option Int
  segment : Option Int
  heading : Option Int
  pathHistory : List PathPoint
deriving DecidableEq

/-- Freshly constructed `PoseCoverageHandler`. -/
def pose_init : PoseCoverageState :=
  { currentAreaSqm := none, totalAreaSqm := none, progressPercent := none,
    missionCompleted := false, xCoordinate := none, yCoordinate := none,
    segment := none, heading := none, pathHistory := [] }

/-- One byte of a payload list: `bytes([payload[i]])` succeeds exactly when
the element is an int in `[0, 256)`; anything else raises (modelled `none`). -/
def readByte (payload : List JValue) (i : Nat) : Option Int :=
  match payload.get? i with
  | some (.jint b) => if 0 ≤ b ∧ b < 256 then some b else none
  | _ => none

/-- Read `_read_int16_le`: bounds check `offset + 1 >= len(payload)` raises, then
two bytes are decoded as a little-endian signed 16-bit integer. -/
def read_int16_le (payload : List JValue) (offset : Nat) : Option Int :=
  if payload.length ≤ offset + 1 then none
  else
    match readByte payload offset, readByte payload (offset + 1) with
    | some lo, some hi =>
        let v := lo + 256 * hi
        some (if 32768 ≤ v then v - 65536 else v)
    | _, _ => none

/-- Read `_read_uint16_le`: as above, unsigned. -/
def read_uint16_le (payload : List JValue) (offset : Nat) : Option Int :=
  if payload.length ≤ offset + 1 then none
  else
    match readByte payload offset, readByte payload (offset + 1) with
    | some lo, some hi => some (lo + 256 * hi)
    | _, _ => none

/-- Method `_parse_full_format`: all six field reads happen before any state
mutation, so a raising read (any `none`) leaves the state unchanged and the
method returns `False` (modelled as `none`). -/
def parse_full_format (s : PoseCoverageState) (payload : List JValue) :
    Option PoseCoverageState :=
  match read_int16_le payload 0, read_int16_le payload 2, read_int16_le payload 6,
        read_uint16_le payload 22, read_uint16_le payload 28, read_uint16_le payload 25 with
  | some x, some y, some heading, some segment, some currentAreaCentisqm, some totalAreaCentisqm =>
      let current_area_sqm : ℚ := (currentAreaCentisqm : ℚ) / 100
      let total_area_sqm : ℚ := (totalAreaCentisqm : ℚ) / 100
      let progress0 : ℚ :=
        if 0 < total_area_sqm then min 100 (current_area_sqm / total_area_sqm * 100) else 0
      let progress_percent : ℚ :=
        if s.missionCompleted = true ∧ 0 < progress0 then 100 else progress0
      let hist0 := s.pathHistory ++ [⟨x, y, heading, segment⟩]
      let hist := if 1000 < hist0.length then hist0.tail else hist0
      some { s with
        xCoordinate := some x, yCoordinate := some y,
        heading := some heading, segment := some segment,
        currentAreaSqm := some current_area_sqm,
        totalAreaSqm := some total_area_sqm,
        progressPercent := some progress_percent,
        pathHistory := hist }
  | _, _, _, _, _, _ => none

/-- Method `_parse_short_format`: coordinates only. -/
def parse_short_format (s : PoseCoverageState) (payload : List JValue) :
    Option PoseCoverageState :=
  match read_int16_le payload 0, read_int16_le payload 2 with
  | some x, some y => some { s with xCoordinate := some x, yCoordinate := some y }
  | _, _ => none

/-- Check `value[0] == 206` / `value[-1] == 206` for an arbitrary Python element:
true only for the int 206. -/
def isSentinelByte : Option JValue → Bool
  | some (.jint n) => n = 206
  | _ => false

/-- Method `PoseCoverageHandler.parse_value`.  Failure (`False`) is `none`. -/
def parse_value (s : PoseCoverageState) (value : JValue) : Option PoseCoverageState :=
  match value with
  | .jlist xs =>
    if xs.length < 8 then none
    else if ¬(isSentinelByte xs.head? = true ∧ isSentinelByte xs.getLast? = true) then none
    else
      let payload := (xs.drop 1).dropLast
      if payload.length = 31 then parse_full_format s payload
      else if payload.length = 6 then parse_short_format s payload
      else none
  | _ => none

/-- Method `mark_mission_completed`. -/
def mark_mission_completed (s : PoseCoverageState) : PoseCoverageState :=
  let s1 := { s with missionCompleted := true }
  match s1.progressPercent with
  | some p => if 0 < p then { s1 with progressPercent := some 100 } else s1
  | none => s1

/-- Method `reset_mission_completion`. -/
def reset_mission_completion (s : PoseCoverageState) : PoseCoverageState :=
  { s with missionCompleted := false }

/-! ## Mower control decoder (mower_control.py) -/

/-- The `MowerControlAction` enum. -/
inductive MowerControlAction where
  | CONTINUE
  | PAUSE
  | COMPLETED
deriving DecidableEq

/-- State of `MowerControlStatusHandler`. -/
structure MCStatusState where
  action : Option MowerControlAction
  statusCode : Option Int
  rawStatus : Option (List JValue)

/-- Freshly constructed `MowerControlStatusHandler`. -/
def mc_status_init : MCStatusState :=
  { action := none, statusCode := none, rawStatus := none }

/-- Notification payloads carried by `_notify_property_change`. -/
inductive NValue where
  | nint (n : Int)
  | nbool (b : Bool)
  | nstr (s : String)
  | nnone
  | nprogress (cur tot prog : Option ℚ)
  | ncoords (x y seg hd : Option Int)
  | nmc (action : Option MowerControlAction) (status : Option Int) (raw : Option (List JValue))
  | nraw (v : JValue)
  | nq (q : ℚ)
  | nunhandled

/-- A fired property-change notification: name and payload. -/
abbrev Notification : Type := String × NValue

/-- The key of the required field of a mower-control value. -/
def statusKey : String := "status"

/-- Dict field lookup (`value["status"]` resp. `"status" in value`). -/
def jlookup (key : String) : List (String × JValue) → Option JValue
  | [] => none
  | (k, v) :: rest => if k = key then some v else jlookup key rest

/-- Method `MowerControlStatusHandler.parse_value`.  Returns the new handler state
and the success flag.  Mutations that the source performs before a failure
path (storing `raw_status`, storing `status_code` before rejecting an unknown
code) are preserved, since the caught exception / `return False` leaves them
in place. -/
def mc_parse_value (s : MCStatusState) (value : JValue) : MCStatusState × Bool :=
  match value with
  | .jdict fields =>
    match jlookup statusKey fields with
    | none => (s, false)
    | some statusVal =>
      match statusVal with
      | .jlist statusArray =>
        let s1 := { s with rawStatus := some statusArray }
        match statusArray with
        | [] => ({ s1 with statusCode := none, action := none }, true)
        | entry :: _ =>
          match entry with
          | .jlist entryElems =>
            match entryElems with
            | _ :: second :: _ =>
              match toInt second with
              | none => (s1, false)
              | some code =>
                let s2 := { s1 with statusCode := some code }
                if code = 0 then ({ s2 with action := some .CONTINUE }, true)
                else if code = 2 then ({ s2 with action := some .COMPLETED }, true)
                else if code = 4 then ({ s2 with action := some .PAUSE }, true)
                else (s2, false)
            | _ => (s1, false)
          | _ => (s1, false)
      | _ => (s, false)
  | _ => (s, false)

/-- Notification name `mower_control_status` (mower_control.py constant). -/
def MOWER_CONTROL_STATUS_PROPERTY_NAME : String := "mower_control_status"

/-- Method `MowerControlStatusHandler.get_notification_data`. -/
def mc_get_notification_data (s : MCStatusState) : NValue :=
  .nmc s.action s.statusCode s.rawStatus

/-- State of `MowerControlPropertyHandler`. -/
structure MCPropState where
  statusHandler : MCStatusState
  currentAction : Option MowerControlAction
  lastStatusCode : Option Int

/-- Freshly constructed `MowerControlPropertyHandler`. -/
def mc_prop_init : MCPropState :=
  { statusHandler := mc_status_init, currentAction := none, lastStatusCode := none }

/-- The `mower_action` notification value (`action.value if action else None`). -/
def mc_action_nvalue : Option MowerControlAction → NValue
  | some .CONTINUE => .nstr ("continue")
  | some .PAUSE => .nstr ("pause")
  | some .COMPLETED => .nstr ("completed")
  | none => .nnone

/-- Method `MowerControlPropertyHandler._handle_status_property`: returns the new
handler state, the success flag, and the notifications fired through the
callback. -/
def mc_handle_status_property (s : MCPropState) (value : JValue) :
    MCPropState × Bool × List Notification :=
  let old_action := s.currentAction
  let old_status_code := s.lastStatusCode
  let parsed := mc_parse_value s.statusHandler value
  if parsed.2 = true then
    let sh := parsed.1
    let s1 : MCPropState :=
      { s with statusHandler := sh, currentAction := sh.action, lastStatusCode := sh.statusCode }
    let notifs :=
      [(MOWER_CONTROL_STATUS_PROPERTY_NAME, mc_get_notification_data sh)]
      ++ (if old_action ≠ sh.action then [(("mower_action" : String), mc_action_nvalue sh.action)] else [])
      ++ (if old_status_code ≠ sh.statusCode then
            [(("mower_status_code" : String),
              match sh.statusCode with | some c => NValue.nint c | none => NValue.nnone)]
          else [])
    (s1, true, notifs)
  else
    ({ s with statusHandler := parsed.1 }, false, [])

/-! ## Property identifiers (dreame/const.py) -/

/-- Modelled from the spec: `dreame/const.py` is not under `src/`; per spec
§4.1 a property identifier is an immutable (service-id, property-id, name)
tuple with exact-pair matching. -/
structure PropertyIdentifier where
  serviceId : Int
  propertyId : Int
  name : String

/-- Match `PropertyIdentifier.matches(siid, piid)`: exact pair equality. -/
def PropertyIdentifier.matches (p : PropertyIdentifier) (siid piid : Int) : Bool :=
  siid = p.serviceId ∧ piid = p.propertyId

/-- Modelled from the spec: battery is 3:1 with notification name
`battery_percent` (repository tests pin both). -/
def BATTERY_PROPERTY : PropertyIdentifier := ⟨3, 1, "battery_percent"⟩

/-- Modelled from the spec: device status is 2:1, name `status`
(repository tests pin both). -/
def STATUS_PROPERTY : PropertyIdentifier := ⟨2, 1, "status"⟩

/-- Modelled from the spec: scheduling task property 2:50 (spec §4.5). -/
def SCHEDULING_TASK_PROPERTY : PropertyIdentifier := ⟨2, 50, "scheduling_task"⟩

/-- Modelled from the spec: scheduling DND property 2:51 (spec §4.5). -/
def SCHEDULING_DND_PROPERTY : PropertyIdentifier := ⟨2, 51, "scheduling_dnd"⟩

/-- Modelled from the spec: scheduling summary property 2:52 (spec §4.5). -/
def SCHEDULING_SUMMARY_PROPERTY : PropertyIdentifier := ⟨2, 52, "scheduling_summary"⟩

/-- Modelled from the spec: mower control status is 2:56 (spec §4.4). -/
def MOWER_CONTROL_STATUS_PROPERTY : PropertyIdentifier := ⟨2, 56, "mower_control"⟩

/-- Modelled from the spec: pose/coverage telemetry is 1:4 (spec §4.2). -/
def POSE_COVERAGE_PROPERTY : PropertyIdentifier := ⟨1, 4, "pose_coverage"⟩

/-- Modelled from the spec: complex status property 1:1 (device.py comment). -/
def PROPERTY_1_1 : PropertyIdentifier := ⟨1, 1, "property_1_1"⟩

/-- Modelled from the spec: firmware installation state 1:2 (device.py comment). -/
def FIRMWARE_INSTALL_STATE_PROPERTY : PropertyIdentifier := ⟨1, 2, "firmware_install_state"⟩

/-- Modelled from the spec: firmware download progress 1:3 (device.py comment). -/
def FIRMWARE_DOWNLOAD_PROGRESS_PROPERTY : PropertyIdentifier := ⟨1, 3, "firmware_download_progress"⟩

/-- Modelled from the spec: session start indicator 1:50 (device.py comment). -/
def SERVICE1_PROPERTY_50 : PropertyIdentifier := ⟨1, 50, "service1_property_50"⟩

/-- Modelled from the spec: session start indicator 1:51 (device.py comment). -/
def SERVICE1_PROPERTY_51 : PropertyIdentifier := ⟨1, 51, "service1_property_51"⟩

/-- Modelled from the spec: completion flag 1:52 (device.py comment). -/
def SERVICE1_COMPLETION_FLAG_PROPERTY : PropertyIdentifier := ⟨1, 52, "service1_completion_flag"⟩

/-- Modelled from the spec: task status 5:104 (device.py comment). -/
def TASK_STATUS_PROPERTY : PropertyIdentifier := ⟨5, 104, "task_status"⟩

/-- Modelled from the spec: service 5 property 5:105 (device.py comment). -/
def SERVICE5_PROPERTY_105 : PropertyIdentifier := ⟨5, 105, "service5_property_105"⟩

/-- Modelled from the spec: BMS phase 5:106 (device.py comment). -/
def BMS_PHASE_PROPERTY : PropertyIdentifier := ⟨5, 106, "bms_phase"⟩

/-- Modelled from the spec: energy index 5:107 (device.py comment). -/
def SERVICE5_ENERGY_INDEX_PROPERTY : PropertyIdentifier := ⟨5, 107, "service5_energy_index"⟩

/-- Modelled from the spec: service 5 property 5:108 (device.py comment). -/
def SERVICE5_PROPERTY_108 : PropertyIdentifier := ⟨5, 108, "service5_property_108"⟩

/-- Modelled from the spec: power state 2:57 (device.py comment). -/
def POWER_STATE_PROPERTY : PropertyIdentifier := ⟨2, 57, "power_state"⟩

/-- Modelled from the spec: service 2 property 2:60 (device.py comment). -/
def SERVICE2_PROPERTY_60 : PropertyIdentifier := ⟨2, 60, "service2_property_60"⟩

/-- Modelled from the spec: service 2 property 2:62 (device.py comment). -/
def SERVICE2_PROPERTY_62 : PropertyIdentifier := ⟨2, 62, "service2_property_62"⟩

/-- Modelled from the spec: service 2 property 2:63 (device.py comment). -/
def SERVICE2_PROPERTY_63 : PropertyIdentifier := ⟨2, 63, "service2_property_63"⟩

/-- Modelled from the spec: work statistics 2:64 (device.py comment). -/
def SERVICE2_PROPERTY_64 : PropertyIdentifier := ⟨2, 64, "service2_property_64"⟩

/-- Modelled from the spec: task navigation status 2:65 (device.py comment). -/
def SERVICE2_PROPERTY_65 : PropertyIdentifier := ⟨2, 65, "service2_property_65"⟩

/-- Modelled from the spec: cloud file path 99:10 (device.py comment). -/
def DEVICE_FILE_PATH_PROPERTY : PropertyIdentifier := ⟨99, 10, "device_file_path"⟩

/-- Notification name for pose-coverage progress data (pose_coverage.py). -/
def POSE_COVERAGE_PROGRESS_PROPERTY_NAME : String := "mowing_progress"

/-- Notification name for pose-coverage coordinate data (pose_coverage.py). -/
def POSE_COVERAGE_COORDINATES_PROPERTY_NAME : String := "mowing_coordinates"

/-- Method `PoseCoverageHandler.get_progress_notification_data`. -/
def get_progress_notification_data (s : PoseCoverageState) : NValue :=
  .nprogress s.currentAreaSqm s.totalAreaSqm s.progressPercent

/-- Method `PoseCoverageHandler.get_coordinates_notification_data`. -/
def get_coordinates_notification_data (s : PoseCoverageState) : NValue :=
  .ncoords s.xCoordinate s.yCoordinate s.segment s.heading

/-- Method `MowerControlPropertyHandler.handle_property_update`. -/
def mc_handle_property_update (siid piid : Int) (value : JValue) (s : MCPropState) :
    MCPropState × Bool × List Notification :=
  if MOWER_CONTROL_STATUS_PROPERTY.matches siid piid then
    mc_handle_status_property s value
  else
    (s, false, [])

/-! ## Device state aggregate (device.py) -/

/-- The sub-handlers whose sources are not under `src/` (`property_1_1`,
`device_code`, `service5`, the scheduling family and the file-download
helper), together with the three property identifiers whose pairs neither
spec, comments nor tests pin down.  `σ` is the combined opaque state of those
handlers.  Modelled from the spec: each is an independent decoder invoked by
the dispatcher, returning a success flag and firing notifications through the
passed callback.  Theorems quantify over this context, so they hold for the
actual implementations. -/
structure DeviceCtx (σ : Type) where
  BLUETOOTH_PROPERTY : PropertyIdentifier
  CHARGING_STATUS_PROPERTY : PropertyIdentifier
  DEVICE_CODE_PROPERTY : PropertyIdentifier
  scheduling_update : Int → Int → JValue → σ → σ × Bool × List Notification
  service5_update : Int → Int → JValue → σ → σ × Bool × List Notification
  property_1_1_parse : JValue → σ → σ × Bool
  property_1_1_temperature : σ → Option ℚ
  device_code_parse : JValue → σ → σ × Bool
  device_code_value : σ → Option Int
  device_code_is_error : σ → Bool
  device_code_is_warning : σ → Bool
  device_code_notification_data : σ → NValue
  set_model : String → σ → σ
  device_code_error_name : String
  device_code_warning_name : String
  device_code_info_name : String
  charging_status_mapping : Int → Option String
  firmware_install_state_mapping : Int → Option String
  download_result : String → Option NValue

/-- Device state owned by `DreameMowerDevice` (device.py `__init__`), with
the notification callback fan-out modelled as an event log. -/
structure DeviceState (σ : Type) where
  firmware : String
  batteryPercent : Int
  statusCode : Int
  bluetoothConnected : Option Bool
  temperature : Option ℚ
  chargingStatus : Option String
  deviceFilePath : Option String
  firmwareInstallState : Option Int
  firmwareDownloadProgress : Option Int
  service1Property50 : Bool
  service1Property51 : Bool
  service1CompletionFlag : Bool
  poseCoverage : PoseCoverageState
  mowerControl : MCPropState
  sub : σ
  notifications : List Notification

/-- Freshly constructed `DreameMowerDevice` state (given the opaque
sub-handler start state). -/
def device_init {σ : Type} (sub0 : σ) : DeviceState σ :=
  { firmware := "Unknown", batteryPercent := 0, statusCode := 0,
    bluetoothConnected := none, temperature := none, chargingStatus := none,
    deviceFilePath := none, firmwareInstallState := none,
    firmwareDownloadProgress := none, service1Property50 := false,
    service1Property51 := false, service1CompletionFlag := false,
    poseCoverage := pose_init, mowerControl := mc_prop_init,
    sub := sub0, notifications := [] }

/-- Callback `_notify_property_change`: appends to the event log. -/
def notify {σ : Type} (s : DeviceState σ) (name : String) (v : NValue) : DeviceState σ :=
  { s with notifications := s.notifications ++ [(name, v)] }

/-- One element of a `properties_changed` params array that carries `siid`
and `piid` (elements without them are skipped by `_handle_message` and are
outside the modelled message space). -/
structure MqttParam where
  siid : Int
  piid : Int
  value : Option JValue

/-- Notification name of the temperature derived from property 1:1.
Modelled from the spec: the constant lives in the missing `dreame/const.py`. -/
def PROPERTY_TEMPERATURE : String := "temperature"

/-- Notification name used for firmware version changes.
Modelled from the spec: the constant lives in the missing `dreame/const.py`. -/
def PROPERTY_FIRMWARE : String := "firmware"

/-- Notification name for escalated unhandled messages (device.py). -/
def UNHANDLED_MQTT_NAME : String := "unhandled_mqtt"

/-- Notification name fired after a successful device file download. -/
def DEVICE_FILE_DOWNLOADED_NAME : String := "device_file_downloaded"

/-- The task-navigation string recognized by the 2:65 branch. -/
def TASK_NAV_DOCK_VALUE : String := "dm::TASK_NAV_DOCK"

/-- Method `_handle_mqtt_property_update` (device.py lines 473-708).  The whole
body is wrapped in one `try/except` whose handler falls through to
`return True`; consequently a raising conversion (`int(...)` on an
unconvertible value, `message["value"]` on a param without a value) is
modelled as returning `(s, true)` with the mutations performed so far, while
the explicit `return False` paths yield `(s, false)`.  Inner `try` blocks
(pose coverage, property 1:1, charging-status conversion) return `False` on
exception instead. -/
def handle_mqtt_property_update {σ : Type} (ctx : DeviceCtx σ) (s : DeviceState σ)
    (p : MqttParam) : DeviceState σ × Bool :=
  let siid := p.siid
  let piid := p.piid
  if BATTERY_PROPERTY.matches siid piid then
    match p.value with
    | none => (s, true)
    | some v =>
      match toInt v with
      | none => (s, true)
      | some battery_value =>
        let old_battery := s.batteryPercent
        let s1 := { s with batteryPercent := battery_value }
        (if old_battery ≠ battery_value then notify s1 BATTERY_PROPERTY.name (.nint battery_value)
         else s1, true)
  else if STATUS_PROPERTY.matches siid piid then
    match p.value with
    | none => (s, true)
    | some v =>
      match toInt v with
      | none => (s, true)
      | some status_code =>
        let old_status_code := s.statusCode
        let s1 := { s with statusCode := status_code }
        if old_status_code ≠ status_code then
          let s2 :=
            if status_code = 1 then
              { s1 with poseCoverage := reset_mission_completion s1.poseCoverage }
            else s1
          (notify s2 STATUS_PROPERTY.name (.nint status_code), true)
        else (s1, true)
  else if ctx.BLUETOOTH_PROPERTY.matches siid piid then
    match p.value with
    | none => (s, true)
    | some v =>
      let bluetooth_value := toBool v
      let old_bluetooth := s.bluetoothConnected
      let s1 := { s with bluetoothConnected := some bluetooth_value }
      (if old_bluetooth ≠ some bluetooth_value then
         notify s1 ctx.BLUETOOTH_PROPERTY.name (.nbool bluetooth_value)
       else s1, true)
  else if SCHEDULING_TASK_PROPERTY.matches siid piid
       || SCHEDULING_DND_PROPERTY.matches siid piid
       || SCHEDULING_SUMMARY_PROPERTY.matches siid piid then
    match p.value with
    | none => (s, true)
    | some v =>
      let r := ctx.scheduling_update siid piid v s.sub
      ({ s with sub := r.1, notifications := s.notifications ++ r.2.2 }, r.2.1)
  else if MOWER_CONTROL_STATUS_PROPERTY.matches siid piid then
    match p.value with
    | none => (s, true)
    | some v =>
      let r := mc_handle_property_update siid piid v s.mowerControl
      ({ s with mowerControl := r.1, notifications := s.notifications ++ r.2.2 }, r.2.1)
  else if POSE_COVERAGE_PROPERTY.matches siid piid then
    match p.value with
    | none => (s, false)
    | some v =>
      match parse_value s.poseCoverage v with
      | none => (s, false)
      | some pc =>
        let s1 := { s with poseCoverage := pc }
        let s2 := notify s1 POSE_COVERAGE_PROGRESS_PROPERTY_NAME
                    (get_progress_notification_data pc)
        let s3 := notify s2 POSE_COVERAGE_COORDINATES_PROPERTY_NAME
                    (get_coordinates_notification_data pc)
        (s3, true)
  else if PROPERTY_1_1.matches siid piid then
    match p.value with
    | none => (s, false)
    | some v =>
      let old_temperature := s.temperature
      let r := ctx.property_1_1_parse v s.sub
      if r.2 = false then ({ s with sub := r.1 }, false)
      else
        let temperature := ctx.property_1_1_temperature r.1
        let s1 := { s with sub := r.1, temperature := temperature }
        (if old_temperature ≠ temperature then
           notify s1 PROPERTY_TEMPERATURE
             (match temperature with | some t => NValue.nq t | none => NValue.nnone)
         else s1, true)
  else if FIRMWARE_INSTALL_STATE_PROPERTY.matches siid piid then
    match p.value with
    | none => (s, true)
    | some v =>
      match toInt v with
      | none => (s, true)
      | some firmware_install_state =>
        match ctx.firmware_install_state_mapping firmware_install_state with
        | none => (s, false)
        | some _ =>
          let old_state := s.firmwareInstallState
          let s1 := { s with firmwareInstallState := some firmware_install_state }
          (if old_state ≠ some firmware_install_state then
             notify s1 FIRMWARE_INSTALL_STATE_PROPERTY.name (.nint firmware_install_state)
           else s1, true)
  else if FIRMWARE_DOWNLOAD_PROGRESS_PROPERTY.matches siid piid then
    match p.value with
    | none => (s, true)
    | some v =>
      match toInt v with
      | none => (s, true)
      | some firmware_download_progress =>
        if firmware_download_progress < 0 ∨ 100 < firmware_download_progress then (s, false)
        else
          let old_progress := s.firmwareDownloadProgress
          let s1 := { s with firmwareDownloadProgress := some firmware_download_progress }
          (if old_progress ≠ some firmware_download_progress then
             notify s1 FIRMWARE_DOWNLOAD_PROGRESS_PROPERTY.name (.nint firmware_download_progress)
           else s1, true)
  else if SERVICE1_PROPERTY_50.matches siid piid then
    (notify { s with service1Property50 := true } SERVICE1_PROPERTY_50.name (.nbool true), true)
  else if SERVICE1_PROPERTY_51.matches siid piid then
    (notify { s with service1Property51 := true } SERVICE1_PROPERTY_51.name (.nbool true), true)
  else if SERVICE1_COMPLETION_FLAG_PROPERTY.matches siid piid then
    (notify { s with service1CompletionFlag := true } SERVICE1_COMPLETION_FLAG_PROPERTY.name
      (.nbool true), true)
  else if ctx.CHARGING_STATUS_PROPERTY.matches siid piid then
    match p.value with
    | none => (s, true)
    | some v =>
      match toInt v with
      | none => (s, false)
      | some code =>
        match ctx.charging_status_mapping code with
        | none => (s, false)
        | some status_text =>
          let old := s.chargingStatus
          let s1 := { s with chargingStatus := some status_text }
          (if old ≠ some status_text then
             notify s1 ctx.CHARGING_STATUS_PROPERTY.name (.nstr status_text)
           else s1, true)
  else if TASK_STATUS_PROPERTY.matches siid piid
       || SERVICE5_PROPERTY_105.matches siid piid
       || BMS_PHASE_PROPERTY.matches siid piid
       || SERVICE5_ENERGY_INDEX_PROPERTY.matches siid piid
       || SERVICE5_PROPERTY_108.matches siid piid then
    match p.value with
    | none => (s, true)
    | some v =>
      let r := ctx.service5_update siid piid v s.sub
      ({ s with sub := r.1, notifications := s.notifications ++ r.2.2 }, r.2.1)
  else if ctx.DEVICE_CODE_PROPERTY.matches siid piid then
    let old_device_code := ctx.device_code_value s.sub
    match p.value with
    | none => (s, true)
    | some v =>
      let r := ctx.device_code_parse v s.sub
      if r.2 = true then
        let s1 := { s with sub := r.1 }
        if old_device_code ≠ ctx.device_code_value r.1 then
          let s2 := notify s1 ctx.DEVICE_CODE_PROPERTY.name
            (match ctx.device_code_value r.1 with | some c => NValue.nint c | none => NValue.nnone)
          let notification_data := ctx.device_code_notification_data r.1
          let s3 :=
            if ctx.device_code_is_error r.1 then
              notify s2 ctx.device_code_error_name notification_data
            else if ctx.device_code_is_warning r.1 then
              notify s2 ctx.device_code_warning_name notification_data
            else
              notify s2 ctx.device_code_info_name notification_data
          (s3, true)
        else (s1, true)
      else ({ s with sub := r.1 }, false)
  else if POWER_STATE_PROPERTY.matches siid piid then
    match p.value with
    | none => (s, true)
    | some v =>
      match toInt v with
      | none => (s, true)
      | some power_state_value =>
        if power_state_value = 1 then
          (notify s POWER_STATE_PROPERTY.name (.nint power_state_value), true)
        else (s, false)
  else if SERVICE2_PROPERTY_60.matches siid piid then
    match p.value with
    | none => (s, true)
    | some v =>
      match toInt v with
      | none => (s, true)
      | some property_value => (notify s SERVICE2_PROPERTY_60.name (.nint property_value), true)
  else if SERVICE2_PROPERTY_62.matches siid piid then
    match p.value with
    | none => (s, true)
    | some v =>
      match toInt v with
      | none => (s, true)
      | some property_value => (notify s SERVICE2_PROPERTY_62.name (.nint property_value), true)
  else if SERVICE2_PROPERTY_63.matches siid piid then
    match p.value with
    | none => (s, true)
    | some v =>
      match toInt v with
      | none => (s, true)
      | some _ => (s, false)
  else if SERVICE2_PROPERTY_64.matches siid piid then
    match p.value with
    | none => (s, true)
    | some v => (notify s SERVICE2_PROPERTY_64.name (.nraw v), true)
  else if SERVICE2_PROPERTY_65.matches siid piid then
    match p.value with
    | none => (s, true)
    | some v =>
      let property_value_str := toStr v
      if property_value_str = TASK_NAV_DOCK_VALUE then
        (notify s SERVICE2_PROPERTY_65.name (.nstr property_value_str), true)
      else (s, false)
  else if DEVICE_FILE_PATH_PROPERTY.matches siid piid then
    match p.value with
    | none => (s, true)
    | some v =>
      let device_file_path := toStr v
      let old_device_file_path := s.deviceFilePath
      let s1 := { s with deviceFilePath := some device_file_path }
      if old_device_file_path ≠ some device_file_path then
        let s2 := notify s1 DEVICE_FILE_PATH_PROPERTY.name (.nstr device_file_path)
        match ctx.download_result device_file_path with
        | some result => (notify s2 DEVICE_FILE_DOWNLOADED_NAME result, true)
        | none => (s2, true)
      else (s1, true)
  else
    (s, false)

/-- The `for param in params_list` loop of `_handle_message`: a handled
param returns immediately; otherwise the iteration continues with the state
as mutated so far; if no param was handled, control falls through to the
`unhandled_mqtt` notification at the end of `_handle_message`. -/
def handle_params_loop {σ : Type} (ctx : DeviceCtx σ) (s : DeviceState σ) :
    List MqttParam → DeviceState σ
  | [] => notify s UNHANDLED_MQTT_NAME .nunhandled
  | p :: rest =>
    let r := handle_mqtt_property_update ctx s p
    if r.2 = true then r.1 else handle_params_loop ctx r.1 rest

/-- Inbound message shapes relevant here: the `properties_changed` branch of
`_handle_message`; every other shape (events, props, unknown methods) is
routed elsewhere or falls through to the unhandled notification. -/
inductive MqttMessage where
  | propertiesChanged (params : List MqttParam)
  | other

/-- Method `_handle_message` restricted to the modelled message space. -/
def handle_message {σ : Type} (ctx : DeviceCtx σ) (s : DeviceState σ) :
    MqttMessage → DeviceState σ
  | .propertiesChanged params => handle_params_loop ctx s params
  | .other => notify s UNHANDLED_MQTT_NAME .nunhandled

/-- The fields of a `devices_list` REST response read by
`_update_device_state_from_info` (absent key = field not present). -/
structure DeviceInfo where
  ver : Option String
  battery : Option JValue
  latestStatus : Option Int
  model : Option String

/-- The firmware section of `_update_device_state_from_info`. -/
def info_firmware_step {σ : Type} (s : DeviceState σ) : Option String → DeviceState σ
  | some v =>
    let old_firmware := s.firmware
    let t := { s with firmware := v }
    if old_firmware ≠ v then notify t PROPERTY_FIRMWARE (.nstr v) else t
  | none => s

/-- The battery section of `_update_device_state_from_info`; a raising
`int(...)` (modelled `none`) aborts the remaining sections. -/
def info_battery_step {σ : Type} (s : DeviceState σ) : Option JValue → Option (DeviceState σ)
  | none => some s
  | some bv =>
    match toInt bv with
    | none => none
    | some b =>
      let old_battery := s.batteryPercent
      let t := { s with batteryPercent := b }
      some (if old_battery ≠ b then notify t BATTERY_PROPERTY.name (.nint b) else t)

/-- The status section of `_update_device_state_from_info`: stores and
notifies, but never touches the pose-coverage handler. -/
def info_status_step {σ : Type} (s : DeviceState σ) : Option Int → DeviceState σ
  | some status_code =>
    let old_status_code := s.statusCode
    let t := { s with statusCode := status_code }
    if old_status_code ≠ status_code then notify t STATUS_PROPERTY.name (.nint status_code)
    else t
  | none => s

/-- The model section of `_update_device_state_from_info`
(`device_code_handler.set_model`). -/
def info_model_step {σ : Type} (ctx : DeviceCtx σ) (s : DeviceState σ) :
    Option String → DeviceState σ
  | some m => { s with sub := ctx.set_model m s.sub }
  | none => s

/-- Method `_update_device_state_from_info` (device.py lines 390-427): the REST
poll path.  Its body is one `try/except`; a raising `int(device_info["battery"])`
keeps the mutations made so far and skips the remaining steps. -/
def update_device_state_from_info {σ : Type} (ctx : DeviceCtx σ) (s : DeviceState σ)
    (info : DeviceInfo) : DeviceState σ :=
  let s1 := info_firmware_step s info.ver
  match info_battery_step s1 info.battery with
  | none => s1
  | some s2 => info_model_step ctx (info_status_step s2 info.latestStatus) info.model

/-! ## Mission sequencer: `return_to_dock` (device.py lines 855-890)

The async control flow is embedded as a function of an environment oracle:
whether the STOP send succeeds, whether the mission-completion event is
signalled before the 30-second `asyncio.wait_for` deadline, and whether the
DOCK send succeeds.  The outcome records the returned boolean together with
the observable steps taken (which sends happened, whether the wait was
entered, and whether it ran to the full timeout). -/

/-- Transport/environment oracle for one `return_to_dock()` call. -/
structure DockEnv where
  stopSendOk : Bool
  completionSignaledWithin30s : Bool
  dockSendOk : Bool

/-- Observable outcome of one `return_to_dock()` call. -/
structure DockOutcome where
  success : Bool
  stopSent : Bool
  dockSent : Bool
  waitAttempted : Bool
  waitedFullTimeout : Bool
  activityNotifications : List String
deriving DecidableEq

/-- Method `return_to_dock()`: clear the completion event, send STOP (failure
aborts), wait on the completion event with a 30-second timeout (a timeout is
logged, not an error), then send DOCK and return its success. -/
def return_to_dock (env : DockEnv) : DockOutcome :=
  if env.stopSendOk = false then
    { success := false, stopSent := true, dockSent := false, waitAttempted := false,
      waitedFullTimeout := false, activityNotifications := [] }
  else
    let waitedFull := env.completionSignaledWithin30s = false
    if env.dockSendOk = false then
      { success := false, stopSent := true, dockSent := true, waitAttempted := true,
        waitedFullTimeout := waitedFull, activityNotifications := [("stopping")] }
    else
      { success := true, stopSent := true, dockSent := true, waitAttempted := true,
        waitedFullTimeout := waitedFull, activityNotifications := [("stopping"), ("docked")] }

/-! ## Helper lemmas -/

/-- The progress computation of `_parse_full_format`, as a function of the
prior completion flag and the freshly stored areas. -/
def mk_progress (mc : Bool) (cur tot : ℚ) : ℚ :=
  let progress0 : ℚ := if 0 < tot then min 100 (cur / tot * 100) else 0
  if mc = true ∧ 0 < progress0 then 100 else progress0

theorem readByte_some_bounds {payload : List JValue} {i : Nat} {b : Int}
    (h : readByte payload i = some b) : 0 ≤ b ∧ b < 256 := by
  unfold readByte at h
  split at h
  · split at h
    · exact Option.some_injective _ h ▸ (by assumption)
    · exact absurd h (by simp)
  · exact absurd h (by simp)

theorem read_uint16_le_nonneg {payload : List JValue} {off : Nat} {n : Int}
    (h : read_uint16_le payload off = some n) : 0 ≤ n := by
  unfold read_uint16_le at h
  split at h
  · exact absurd h (by simp)
  · split at h
    · rename_i lo hi hlo hhi
      obtain ⟨hlo0, _⟩ := readByte_some_bounds hlo
      obtain ⟨hhi0, _⟩ := readByte_some_bounds hhi
      obtain rfl : lo + 256 * hi = n := Option.some_injective _ h
      positivity
    · exact absurd h (by simp)

theorem parse_full_format_some_inv {s s' : PoseCoverageState} {payload : List JValue}
    (h : parse_full_format s payload = some s') :
    ∃ x y heading segment curC totC : Int,
      read_int16_le payload 0 = some x ∧
      read_int16_le payload 2 = some y ∧
      read_int16_le payload 6 = some heading ∧
      read_uint16_le payload 22 = some segment ∧
      read_uint16_le payload 28 = some curC ∧
      read_uint16_le payload 25 = some totC ∧
      s' = { s with
        xCoordinate := some x, yCoordinate := some y,
        heading := some heading, segment := some segment,
        currentAreaSqm := some ((curC : ℚ) / 100),
        totalAreaSqm := some ((totC : ℚ) / 100),
        progressPercent := some (mk_progress s.missionCompleted ((curC : ℚ) / 100) ((totC : ℚ) / 100)),
        pathHistory :=
          if 1000 < (s.pathHistory ++ [PathPoint.mk x y heading segment]).length then
            (s.pathHistory ++ [PathPoint.mk x y heading segment]).tail
          else s.pathHistory ++ [PathPoint.mk x y heading segment] } := by
  unfold parse_full_format at h
  split at h
  · rename_i x y heading segment curC totC hx hy hh hs hc ht
    exact ⟨x, y, heading, segment, curC, totC, hx, hy, hh, hs, hc, ht,
      (Option.some_injective _ h.symm)⟩
  · exact absurd h (by simp)

theorem parse_short_format_some_inv {s s' : PoseCoverageState} {payload : List JValue}
    (h : parse_short_format s payload = some s') :
    ∃ x y : Int,
      read_int16_le payload 0 = some x ∧
      read_int16_le payload 2 = some y ∧
      s' = { s with xCoordinate := some x, yCoordinate := some y } := by
  unfold parse_short_format at h
  split at h
  · rename_i x y hx hy
    exact ⟨x, y, hx, hy, (Option.some_injective _ h.symm)⟩
  · exact absurd h (by simp)

theorem zero_branch_eq {T X : ℚ} (h : 0 ≤ T) :
    (if 0 < T then X else 0) = (if T = 0 then 0 else X) := by
  rcases eq_or_lt_of_le h with h0 | h0
  · simp [← h0]
  · simp [h0, h0.ne.symm]

/-- Concrete full-format interior payload: x=100, y=200, heading=45,
segment=5, total area 10000 centi-sqm, current area 9600 centi-sqm. -/
def payload96 : List JValue :=
  ([100, 0, 200, 0, 0, 0, 45, 0] ++ List.replicate 14 0
    ++ [5, 0, 0, 16, 39, 0, 128, 37, 0]).map .jint

/-- As `payload96` but with current area 0 centi-sqm. -/
def payloadZero : List JValue :=
  ([100, 0, 200, 0, 0, 0, 45, 0] ++ List.replicate 14 0
    ++ [5, 0, 0, 16, 39, 0, 0, 0, 0]).map .jint

/-- Concrete short-format interior payload: x=300, y=600. -/
def payloadShort : List JValue := ([44, 1, 88, 2, 7, 9] : List Int).map .jint

/-- Result of decoding `payload96` from the initial state (progress 96%). -/
def pose96 : PoseCoverageState :=
  { currentAreaSqm := some 96, totalAreaSqm := some 100, progressPercent := some 96,
    missionCompleted := false, xCoordinate := some 100, yCoordinate := some 200,
    segment := some 5, heading := some 45, pathHistory := [⟨100, 200, 45, 5⟩] }

theorem parse_payload96_from_init : parse_full_format pose_init payload96 = some pose96 := by
  have hx : read_int16_le payload96 0 = some 100 := by decide
  have hy : read_int16_le payload96 2 = some 200 := by decide
  have hh : read_int16_le payload96 6 = some 45 := by decide
  have hs : read_uint16_le payload96 22 = some 5 := by decide
  have hc : read_uint16_le payload96 28 = some 9600 := by decide
  have ht : read_uint16_le payload96 25 = some 10000 := by decide
  unfold parse_full_format
  rw [hx, hy, hh, hs, hc, ht]
  simp only [pose_init, pose96]
  norm_num [min_def]

/-- State `pose96` after `mark_mission_completed()`: progress forced to 100. -/
def pose96marked : PoseCoverageState := { pose96 with missionCompleted := true, progressPercent := some 100 }

theorem mark_pose96 : mark_mission_completed pose96 = pose96marked := by
  simp only [mark_mission_completed, pose96, pose96marked]
  norm_num

/-- State `pose96marked` after decoding `payloadZero`: computed progress is 0, so
the stored progress drops to 0 despite the set completion flag. -/
def pose96dropped : PoseCoverageState :=
  { currentAreaSqm := some 0, totalAreaSqm := some 100, progressPercent := some 0,
    missionCompleted := true, xCoordinate := some 100, yCoordinate := some 200,
    segment := some 5, heading := some 45,
    pathHistory := [⟨100, 200, 45, 5⟩, ⟨100, 200, 45, 5⟩] }

theorem parse_payloadZero_from_marked :
    parse_full_format pose96marked payloadZero = some pose96dropped := by
  have hx : read_int16_le payloadZero 0 = some 100 := by decide
  have hy : read_int16_le payloadZero 2 = some 200 := by decide
  have hh : read_int16_le payloadZero 6 = some 45 := by decide
  have hs : read_uint16_le payloadZero 22 = some 5 := by decide
  have hc : read_uint16_le payloadZero 28 = some 0 := by decide
  have ht : read_uint16_le payloadZero 25 = some 10000 := by decide
  unfold parse_full_format
  rw [hx, hy, hh, hs, hc, ht]
  simp only [pose96marked, pose96, pose96dropped]
  norm_num [min_def]

/-- State `pose96marked` after decoding `payload96` again: progress stays 100. -/
def pose96still : PoseCoverageState :=
  { pose96dropped with currentAreaSqm := some 96, progressPercent := some 100 }

theorem parse_payload96_from_marked :
    parse_full_format pose96marked payload96 = some pose96still := by
  have hx : read_int16_le payload96 0 = some 100 := by decide
  have hy : read_int16_le payload96 2 = some 200 := by decide
  have hh : read_int16_le payload96 6 = some 45 := by decide
  have hs : read_uint16_le payload96 22 = some 5 := by decide
  have hc : read_uint16_le payload96 28 = some 9600 := by decide
  have ht : read_uint16_le payload96 25 = some 10000 := by decide
  unfold parse_full_format
  rw [hx, hy, hh, hs, hc, ht]
  simp only [pose96marked, pose96, pose96dropped, pose96still]
  norm_num [min_def]

/-! ## Claims about the pose/coverage decoder -/

/-- C1: for every successful full-format decode, the stored progress equals
`min(100, current_area_sqm/total_area_sqm*100)` when the total area is
positive and `0` when it is zero, except that it is forced to exactly 100
when the mission-completed flag was set and the computed progress is
positive. -/
theorem claim_C1 (s s' : PoseCoverageState) (payload : List JValue)
    (h : parse_full_format s payload = some s') :
    ∃ cur tot : ℚ, s'.currentAreaSqm = some cur ∧ s'.totalAreaSqm = some tot ∧
      0 ≤ cur ∧ 0 ≤ tot ∧
      s'.progressPercent =
        some (if s.missionCompleted = true ∧
                 0 < (if tot = 0 then 0 else min 100 (cur / tot * 100)) then (100 : ℚ)
              else (if tot = 0 then 0 else min 100 (cur / tot * 100))) := by
  obtain ⟨x, y, hd, seg, curC, totC, hx, hy, hh, hs, hc, ht, rfl⟩ := parse_full_format_some_inv h
  have hcur0 : (0 : ℚ) ≤ (curC : ℚ) / 100 := by
    have := read_uint16_le_nonneg hc
    positivity
  have htot0 : (0 : ℚ) ≤ (totC : ℚ) / 100 := by
    have := read_uint16_le_nonneg ht
    positivity
  refine ⟨(curC : ℚ) / 100, (totC : ℚ) / 100, rfl, rfl, hcur0, htot0, ?_⟩
  simp only [mk_progress]
  rw [zero_branch_eq htot0]

/-- C3 counterexample: after a 96% decode and `mark_mission_completed()`
(progress reads 100), a further successful full-format decode whose payload
carries current area 0 drives `progress_percent` back to 0, not 100. -/
theorem claim_C3_counterexample :
    parse_full_format pose_init payload96 = some pose96 ∧
    pose96.progressPercent = some 96 ∧
    mark_mission_completed pose96 = pose96marked ∧
    pose96marked.progressPercent = some 100 ∧
    pose96marked.missionCompleted = true ∧
    parse_full_format pose96marked payloadZero = some pose96dropped ∧
    pose96dropped.progressPercent = some 0 ∧
    pose96dropped.progressPercent ≠ some 100 := by
  refine ⟨parse_payload96_from_init, rfl, mark_pose96, rfl, rfl,
    parse_payloadZero_from_marked, rfl, ?_⟩
  simp [pose96dropped]

/-- C3 (amended): once `mark_mission_completed()` is called in a state where
progress > 0 has been observed, `progress_percent` reads 100, and it
continues to read 100 after every subsequent successful full-format decode
whose own computed (pre-cap) progress is positive — i.e. whose stored
current and total areas are positive; a decode whose computed progress is 0
resets the reading to 0.  The flag stays set until
`reset_mission_completion()` clears it. -/
theorem claim_C3_amended :
    (∀ (s : PoseCoverageState) (p : ℚ), s.progressPercent = some p → 0 < p →
        (mark_mission_completed s).progressPercent = some 100 ∧
        (mark_mission_completed s).missionCompleted = true) ∧
    (∀ (s s' : PoseCoverageState) (payload : List JValue) (cur tot : ℚ),
        s.missionCompleted = true →
        parse_full_format s payload = some s' →
        s'.currentAreaSqm = some cur → s'.totalAreaSqm = some tot →
        0 < cur → 0 < tot →
        s'.progressPercent = some 100 ∧ s'.missionCompleted = true) ∧
    (∀ s : PoseCoverageState, (reset_mission_completion s).missionCompleted = false) := by
  refine ⟨?_, ?_, fun s => rfl⟩
  · intro s p hp hpos
    obtain ⟨ca, ta, pp, mc, xc, yc, sg, hd, ph⟩ := s
    simp only at hp
    subst hp
    simp [mark_mission_completed, hpos]
  · intro s s' payload cur tot hmc h hcur htot hcur0 htot0
    obtain ⟨x, y, hd, seg, curC, totC, hx, hy, hh, hs, hc, ht, rfl⟩ := parse_full_format_some_inv h
    obtain rfl : (curC : ℚ) / 100 = cur := Option.some_injective _ hcur
    obtain rfl : (totC : ℚ) / 100 = tot := Option.some_injective _ htot
    refine ⟨?_, hmc⟩
    simp only [mk_progress]
    have hmin : 0 < min (100 : ℚ) ((curC : ℚ) / 100 / ((totC : ℚ) / 100) * 100) := by
      apply lt_min (by norm_num)
      positivity
    rw [if_pos htot0, if_pos ⟨hmc, hmin⟩]

theorem claim_C3_amended_witness :
    ((mark_mission_completed pose96).progressPercent = some 100 ∧
      (mark_mission_completed pose96).missionCompleted = true) ∧
    (pose96still.progressPercent = some 100 ∧ pose96still.missionCompleted = true) ∧
    (reset_mission_completion pose96).missionCompleted = false :=
  ⟨claim_C3_amended.1 pose96 96 rfl (by norm_num),
   claim_C3_amended.2.1 pose96marked pose96still payload96 96 100
     rfl parse_payload96_from_marked (by norm_num [pose96still, pose96dropped])
     (by norm_num [pose96still, pose96dropped]) (by norm_num) (by norm_num),
   claim_C3_amended.2.2 pose96⟩

theorem claim_C1_witness :
    ∃ cur tot : ℚ, pose96.currentAreaSqm = some cur ∧ pose96.totalAreaSqm = some tot ∧
      0 ≤ cur ∧ 0 ≤ tot ∧
      pose96.progressPercent =
        some (if pose_init.missionCompleted = true ∧
                 0 < (if tot = 0 then 0 else min 100 (cur / tot * 100)) then (100 : ℚ)
              else (if tot = 0 then 0 else min 100 (cur / tot * 100))) :=
  claim_C1 pose_init pose96 payload96 parse_payload96_from_init

theorem jint_getLast_map (v : List Int) :
    (v.map JValue.jint).getLast? = v.getLast?.map JValue.jint := by
  induction v with
  | nil => rfl
  | cons a l ih =>
    cases l with
    | nil => rfl
    | cons b m => simpa [List.getLast?_cons_cons] using ih

theorem map_head_sentinel (v : List Int) :
    isSentinelByte (v.map JValue.jint).head? = true ↔ v.head? = some 206 := by
  cases v <;> simp [isSentinelByte]

theorem map_getLast_sentinel (v : List Int) :
    isSentinelByte (v.map JValue.jint).getLast? = true ↔ v.getLast? = some 206 := by
  rw [jint_getLast_map]
  cases h : v.getLast? <;> simp [isSentinelByte]

/-- C6: a byte list whose interior length (after stripping the two sentinel
positions) is neither 6 nor 31 — i.e. whose total length is neither 8 nor
33 — fails to decode; and a byte list of correct length whose first or last
byte is not 0xCE (206) also fails to decode. -/
theorem claim_C6 :
    (∀ (s : PoseCoverageState) (v : List Int),
        v.length ≠ 8 → v.length ≠ 33 →
        parse_value s (.jlist (v.map .jint)) = none) ∧
    (∀ (s : PoseCoverageState) (v : List Int),
        (v.length = 8 ∨ v.length = 33) →
        (v.head? ≠ some 206 ∨ v.getLast? ≠ some 206) →
        parse_value s (.jlist (v.map .jint)) = none) := by
  constructor
  · intro s v h8 h33
    simp only [parse_value, List.length_map]
    by_cases h1 : v.length < 8
    · rw [if_pos h1]
    · rw [if_neg h1]
      by_cases h2 : ¬(isSentinelByte (v.map JValue.jint).head? = true ∧
          isSentinelByte (v.map JValue.jint).getLast? = true)
      · rw [if_pos h2]
      · rw [if_neg h2]
        have hlen : ((v.map JValue.jint).drop 1).dropLast.length = v.length - 1 - 1 := by
          simp [List.length_dropLast, List.length_drop]
        rw [if_neg (by rw [hlen]; omega), if_neg (by rw [hlen]; omega)]
  · intro s v hlen8 hsent
    simp only [parse_value, List.length_map]
    have h1 : ¬ v.length < 8 := by rcases hlen8 with h | h <;> omega
    rw [if_neg h1]
    have h2 : ¬(isSentinelByte (v.map JValue.jint).head? = true ∧
        isSentinelByte (v.map JValue.jint).getLast? = true) := by
      rintro ⟨ha, hb⟩
      rcases hsent with h | h
      · exact h ((map_head_sentinel v).mp ha)
      · exact h ((map_getLast_sentinel v).mp hb)
    rw [if_pos h2]

theorem claim_C6_witness :
    (([206, 0, 206] : List Int).length ≠ 8 ∧ ([206, 0, 206] : List Int).length ≠ 33 ∧
      parse_value pose_init (.jlist (([206, 0, 206] : List Int).map .jint)) = none) ∧
    ((([0, 0, 0, 0, 0, 0, 0, 0] : List Int).length = 8 ∨
        ([0, 0, 0, 0, 0, 0, 0, 0] : List Int).length = 33) ∧
      (([0, 0, 0, 0, 0, 0, 0, 0] : List Int).head? ≠ some 206 ∨
        ([0, 0, 0, 0, 0, 0, 0, 0] : List Int).getLast? ≠ some 206) ∧
      parse_value pose_init (.jlist (([0, 0, 0, 0, 0, 0, 0, 0] : List Int).map .jint)) = none) :=
  ⟨⟨by decide, by decide, claim_C6.1 pose_init ([206, 0, 206]) (by decide) (by decide)⟩,
   ⟨by decide, by decide,
    claim_C6.2 pose_init ([0, 0, 0, 0, 0, 0, 0, 0]) (by decide) (by decide)⟩⟩

/-- C8: a successful short-format decode updates only the x and y
coordinates; areas, progress, segment, heading, the completion flag and the
path history keep their prior values. -/
theorem claim_C8 (s s' : PoseCoverageState) (payload : List JValue)
    (h : parse_short_format s payload = some s') :
    (∃ x y : Int, read_int16_le payload 0 = some x ∧ read_int16_le payload 2 = some y ∧
      s'.xCoordinate = some x ∧ s'.yCoordinate = some y) ∧
    s'.currentAreaSqm = s.currentAreaSqm ∧ s'.totalAreaSqm = s.totalAreaSqm ∧
    s'.progressPercent = s.progressPercent ∧ s'.segment = s.segment ∧
    s'.heading = s.heading ∧ s'.missionCompleted = s.missionCompleted ∧
    s'.pathHistory = s.pathHistory := by
  obtain ⟨x, y, hx, hy, rfl⟩ := parse_short_format_some_inv h
  exact ⟨⟨x, y, hx, hy, rfl, rfl⟩, rfl, rfl, rfl, rfl, rfl, rfl, rfl⟩

/-- Result of a short-format decode of `payloadShort` from `pose96`. -/
def poseShort : PoseCoverageState :=
  { pose96 with xCoordinate := some 300, yCoordinate := some 600 }

theorem parse_short_from_pose96 : parse_short_format pose96 payloadShort = some poseShort := by
  have hx : read_int16_le payloadShort 0 = some 300 := by decide
  have hy : read_int16_le payloadShort 2 = some 600 := by decide
  unfold parse_short_format
  rw [hx, hy]
  rfl

theorem claim_C8_witness :
    (∃ x y : Int, read_int16_le payloadShort 0 = some x ∧
      read_int16_le payloadShort 2 = some y ∧
      poseShort.xCoordinate = some x ∧ poseShort.yCoordinate = some y) ∧
    poseShort.currentAreaSqm = pose96.currentAreaSqm ∧
    poseShort.totalAreaSqm = pose96.totalAreaSqm ∧
    poseShort.progressPercent = pose96.progressPercent ∧
    poseShort.segment = pose96.segment ∧
    poseShort.heading = pose96.heading ∧
    poseShort.missionCompleted = pose96.missionCompleted ∧
    poseShort.pathHistory = pose96.pathHistory :=
  claim_C8 pose96 poseShort payloadShort parse_short_from_pose96

theorem parse_full_format_history_le {s s' : PoseCoverageState} {payload : List JValue}
    (hle : s.pathHistory.length ≤ 1000) (h : parse_full_format s payload = some s') :
    s'.pathHistory.length ≤ 1000 := by
  obtain ⟨x, y, hd, seg, curC, totC, _, _, _, _, _, _, rfl⟩ := parse_full_format_some_inv h
  show (if 1000 < (s.pathHistory ++ [PathPoint.mk x y hd seg]).length then
      (s.pathHistory ++ [PathPoint.mk x y hd seg]).tail
    else s.pathHistory ++ [PathPoint.mk x y hd seg]).length ≤ 1000
  split_ifs with h1
  · simp only [List.length_tail, List.length_append, List.length_singleton] at h1 ⊢
    omega
  · simp only [List.length_append, List.length_singleton] at h1 ⊢
    omega

theorem fold_history_le (payloads : List (List JValue)) :
    ∀ s : PoseCoverageState, s.pathHistory.length ≤ 1000 →
      ((payloads.foldl (fun t p => (parse_full_format t p).getD t) s).pathHistory.length ≤ 1000) := by
  induction payloads with
  | nil => intro s hs; simpa using hs
  | cons p rest ih =>
    intro s hs
    simp only [List.foldl_cons]
    apply ih
    cases hp : parse_full_format s p with
    | none => simpa [hp] using hs
    | some s2 => simpa [hp] using parse_full_format_history_le hs hp

theorem tail_append_singleton {α : Type} (l : List α) (a : α) (h : l ≠ []) :
    (l ++ [a]).tail = l.tail ++ [a] := by
  cases l with
  | nil => exact absurd rfl h
  | cons b m => rfl

/-- C9: starting from the freshly initialized handler, any sequence of
full-format decodes leaves at most 1000 path-history entries; a successful
decode appends one record when there is room and otherwise evicts exactly
the oldest record, keeping the rest in FIFO order. -/
theorem claim_C9 :
    (∀ payloads : List (List JValue),
        ((payloads.foldl (fun t p => (parse_full_format t p).getD t) pose_init).pathHistory.length
          ≤ 1000)) ∧
    (∀ (s s' : PoseCoverageState) (payload : List JValue),
        parse_full_format s payload = some s' →
        (s.pathHistory.length < 1000 → ∃ pt, s'.pathHistory = s.pathHistory ++ [pt]) ∧
        (s.pathHistory.length = 1000 →
          ∃ pt, s'.pathHistory = s.pathHistory.tail ++ [pt] ∧ s'.pathHistory.length = 1000)) := by
  constructor
  · intro payloads
    exact fold_history_le payloads pose_init (by simp [pose_init])
  · intro s s' payload h
    obtain ⟨x, y, hd, seg, curC, totC, _, _, _, _, _, _, rfl⟩ := parse_full_format_some_inv h
    constructor
    · intro hlt
      refine ⟨PathPoint.mk x y hd seg, ?_⟩
      show (if 1000 < (s.pathHistory ++ [PathPoint.mk x y hd seg]).length then
          (s.pathHistory ++ [PathPoint.mk x y hd seg]).tail
        else s.pathHistory ++ [PathPoint.mk x y hd seg]) = s.pathHistory ++ [PathPoint.mk x y hd seg]
      rw [if_neg]
      simp only [List.length_append, List.length_singleton]
      omega
    · intro heq
      refine ⟨PathPoint.mk x y hd seg, ?_, ?_⟩
      · show (if 1000 < (s.pathHistory ++ [PathPoint.mk x y hd seg]).length then
            (s.pathHistory ++ [PathPoint.mk x y hd seg]).tail
          else s.pathHistory ++ [PathPoint.mk x y hd seg]) = s.pathHistory.tail ++ [PathPoint.mk x y hd seg]
        rw [if_pos (by simp only [List.length_append, List.length_singleton]; omega)]
        exact tail_append_singleton s.pathHistory (PathPoint.mk x y hd seg)
          (by intro hnil; rw [hnil] at heq; simp at heq)
      · show (if 1000 < (s.pathHistory ++ [PathPoint.mk x y hd seg]).length then
            (s.pathHistory ++ [PathPoint.mk x y hd seg]).tail
          else s.pathHistory ++ [PathPoint.mk x y hd seg]).length = 1000
        rw [if_pos (by simp only [List.length_append, List.length_singleton]; omega)]
        simp only [List.length_tail, List.length_append, List.length_singleton]
        omega

theorem claim_C9_witness :
    ((([payload96] : List (List JValue)).foldl
        (fun t p => (parse_full_format t p).getD t) pose_init).pathHistory.length ≤ 1000) ∧
    (∃ pt, pose96.pathHistory = pose_init.pathHistory ++ [pt]) :=
  ⟨claim_C9.1 ([payload96]),
   (claim_C9.2 pose_init pose96 payload96 parse_payload96_from_init).1 (by decide)⟩

/-! ## Claims about the mower-control decoder -/

/-- A mower-control value whose first status entry is `[x, c]`. -/
def mkStatusValue (x c : Int) (rest : List JValue) : JValue :=
  .jdict [(statusKey, .jlist (.jlist [.jint x, .jint c] :: rest))]

/-- C7: `{"status": []}` decodes successfully with no action and no status
code; a first status entry `[x, c]` yields CONTINUE for c=0, COMPLETED for
c=2 and PAUSE for c=4, independent of x; any other numeric code fails the
decode. -/
theorem claim_C7 :
    (∀ s : MCStatusState,
        (mc_parse_value s (.jdict [(statusKey, .jlist [])])).2 = true ∧
        (mc_parse_value s (.jdict [(statusKey, .jlist [])])).1.action = none ∧
        (mc_parse_value s (.jdict [(statusKey, .jlist [])])).1.statusCode = none) ∧
    (∀ (s : MCStatusState) (x : Int) (rest : List JValue),
        (mc_parse_value s (mkStatusValue x 0 rest)).2 = true ∧
        (mc_parse_value s (mkStatusValue x 0 rest)).1.action = some .CONTINUE ∧
        (mc_parse_value s (mkStatusValue x 0 rest)).1.statusCode = some 0) ∧
    (∀ (s : MCStatusState) (x : Int) (rest : List JValue),
        (mc_parse_value s (mkStatusValue x 2 rest)).2 = true ∧
        (mc_parse_value s (mkStatusValue x 2 rest)).1.action = some .COMPLETED ∧
        (mc_parse_value s (mkStatusValue x 2 rest)).1.statusCode = some 2) ∧
    (∀ (s : MCStatusState) (x : Int) (rest : List JValue),
        (mc_parse_value s (mkStatusValue x 4 rest)).2 = true ∧
        (mc_parse_value s (mkStatusValue x 4 rest)).1.action = some .PAUSE ∧
        (mc_parse_value s (mkStatusValue x 4 rest)).1.statusCode = some 4) ∧
    (∀ (s : MCStatusState) (x c : Int) (rest : List JValue),
        c ≠ 0 → c ≠ 2 → c ≠ 4 →
        (mc_parse_value s (mkStatusValue x c rest)).2 = false) := by
  refine ⟨?_, ?_, ?_, ?_, ?_⟩
  · intro s
    simp [mc_parse_value, jlookup]
  · intro s x rest
    simp [mc_parse_value, jlookup, mkStatusValue, toInt]
  · intro s x rest
    norm_num [mc_parse_value, jlookup, mkStatusValue, toInt]
  · intro s x rest
    norm_num [mc_parse_value, jlookup, mkStatusValue, toInt]
  · intro s x c rest hc0 hc2 hc4
    simp [mc_parse_value, jlookup, mkStatusValue, toInt, hc0, hc2, hc4]

theorem claim_C7_witness :
    ((mc_parse_value mc_status_init (.jdict [(statusKey, .jlist [])])).2 = true ∧
      (mc_parse_value mc_status_init (.jdict [(statusKey, .jlist [])])).1.action = none ∧
      (mc_parse_value mc_status_init (.jdict [(statusKey, .jlist [])])).1.statusCode = none) ∧
    ((mc_parse_value mc_status_init (mkStatusValue 7 4 [])).2 = true ∧
      (mc_parse_value mc_status_init (mkStatusValue 7 4 [])).1.action = some .PAUSE ∧
      (mc_parse_value mc_status_init (mkStatusValue 7 4 [])).1.statusCode = some 4) ∧
    (mc_parse_value mc_status_init (mkStatusValue 7 99 [])).2 = false :=
  ⟨claim_C7.1 mc_status_init,
   claim_C7.2.2.2.1 mc_status_init 7 ([]),
   claim_C7.2.2.2.2 mc_status_init 7 99 ([]) (by decide) (by decide) (by decide)⟩

/-- C10: whenever the mower-control status parse fails, the property
handler's `current_action` and `last_status_code` are unchanged and no
notification callback fires. -/
theorem claim_C10 (s : MCPropState) (v : JValue)
    (h : (mc_handle_status_property s v).2.1 = false) :
    (mc_handle_status_property s v).1.currentAction = s.currentAction ∧
    (mc_handle_status_property s v).1.lastStatusCode = s.lastStatusCode ∧
    (mc_handle_status_property s v).2.2 = [] := by
  by_cases hp : (mc_parse_value s.statusHandler v).2 = true
  · exfalso
    simp only [mc_handle_status_property, if_pos hp] at h
    exact absurd h (by simp)
  · simp only [mc_handle_status_property, if_neg hp]
    refine ⟨?_, ?_, ?_⟩ <;> trivial

theorem claim_C10_witness :
    (mc_handle_status_property mc_prop_init (mkStatusValue 0 99 [])).1.currentAction
        = mc_prop_init.currentAction ∧
    (mc_handle_status_property mc_prop_init (mkStatusValue 0 99 [])).1.lastStatusCode
        = mc_prop_init.lastStatusCode ∧
    (mc_handle_status_property mc_prop_init (mkStatusValue 0 99 [])).2.2 = [] :=
  claim_C10 mc_prop_init (mkStatusValue 0 99 []) (by decide)

/-! ## Claims about the mission sequencer -/

/-- C2: a failing STOP send aborts `return_to_dock()` without waiting and
without sending DOCK; when STOP succeeds and the completion signal never
arrives within the 30-second window, DOCK is still sent after the full
timeout and the result is DOCK's own success; when the signal arrives early,
the result is DOCK's success without waiting out the timeout. -/
theorem claim_C2 :
    (∀ env : DockEnv, env.stopSendOk = false →
        (return_to_dock env).success = false ∧ (return_to_dock env).dockSent = false ∧
        (return_to_dock env).waitAttempted = false) ∧
    (∀ env : DockEnv, env.stopSendOk = true → env.completionSignaledWithin30s = false →
        (return_to_dock env).dockSent = true ∧
        (return_to_dock env).waitedFullTimeout = true ∧
        (return_to_dock env).success = env.dockSendOk) ∧
    (∀ env : DockEnv, env.stopSendOk = true → env.completionSignaledWithin30s = true →
        (return_to_dock env).dockSent = true ∧
        (return_to_dock env).waitedFullTimeout = false ∧
        (return_to_dock env).success = env.dockSendOk) := by
  refine ⟨?_, ?_, ?_⟩
  · rintro ⟨so, cs, dk⟩ h
    subst h
    cases cs <;> cases dk <;> simp [return_to_dock]
  · rintro ⟨so, cs, dk⟩ h1 h2
    subst h1
    subst h2
    cases dk <;> simp [return_to_dock]
  · rintro ⟨so, cs, dk⟩ h1 h2
    subst h1
    subst h2
    cases dk <;> simp [return_to_dock]

theorem claim_C2_witness :
    ((return_to_dock ⟨false, false, true⟩).success = false ∧
      (return_to_dock ⟨false, false, true⟩).dockSent = false ∧
      (return_to_dock ⟨false, false, true⟩).waitAttempted = false) ∧
    ((return_to_dock ⟨true, false, true⟩).dockSent = true ∧
      (return_to_dock ⟨true, false, true⟩).waitedFullTimeout = true ∧
      (return_to_dock ⟨true, false, true⟩).success = true) ∧
    ((return_to_dock ⟨true, true, false⟩).dockSent = true ∧
      (return_to_dock ⟨true, true, false⟩).waitedFullTimeout = false ∧
      (return_to_dock ⟨true, true, false⟩).success = false) :=
  ⟨claim_C2.1 ⟨false, false, true⟩ rfl,
   claim_C2.2.1 ⟨true, false, true⟩ rfl rfl,
   claim_C2.2.2 ⟨true, true, false⟩ rfl rfl⟩

/-! ## Claims about the dispatcher -/

/-- A concrete instantiation of the opaque sub-handler context (used only to
evaluate concrete dispatch scenarios whose params never reach the opaque
branches): trivial sub-handlers over `Unit`, and unknown property identifiers
placed on unused pairs. -/
def ctx0 : DeviceCtx Unit :=
  { BLUETOOTH_PROPERTY := ⟨90, 1, "bluetooth"⟩,
    CHARGING_STATUS_PROPERTY := ⟨90, 2, "charging_status"⟩,
    DEVICE_CODE_PROPERTY := ⟨90, 3, "device_code"⟩,
    scheduling_update := fun _ _ _ u => (u, false, []),
    service5_update := fun _ _ _ u => (u, false, []),
    property_1_1_parse := fun _ u => (u, false),
    property_1_1_temperature := fun _ => none,
    device_code_parse := fun _ u => (u, false),
    device_code_value := fun _ => none,
    device_code_is_error := fun _ => false,
    device_code_is_warning := fun _ => false,
    device_code_notification_data := fun _ => .nnone,
    set_model := fun _ u => u,
    device_code_error_name := "device_code_error",
    device_code_warning_name := "device_code_warning",
    device_code_info_name := "device_code_info",
    charging_status_mapping := fun _ => none,
    firmware_install_state_mapping := fun _ => none,
    download_result := fun _ => none }

/-- Fresh device state over the trivial sub-handler context. -/
def dev0 : DeviceState Unit := device_init ()

/-- A battery update param (3:1, value 85). -/
def pBat : MqttParam := ⟨3, 1, some (.jint 85)⟩

/-- A status update param (2:1, value 1 = mowing). -/
def pStat : MqttParam := ⟨2, 1, some (.jint 1)⟩

/-- C4 counterexample: in a `properties_changed` message carrying a battery
update followed by a status update, only the battery update is dispatched —
the loop returns after the first handled element, so the status value is
never stored, although dispatching the status element alone would store it. -/
theorem claim_C4_counterexample :
    (handle_message ctx0 dev0 (.propertiesChanged [pBat, pStat])).batteryPercent = 85 ∧
    (handle_message ctx0 dev0 (.propertiesChanged [pBat, pStat])).statusCode = 0 ∧
    ((handle_message ctx0 dev0 (.propertiesChanged [pBat, pStat])).notifications.map
        Prod.fst) = [BATTERY_PROPERTY.name] ∧
    (handle_message ctx0 dev0 (.propertiesChanged [pStat])).statusCode = 1 := by
  refine ⟨?_, ?_, ?_, ?_⟩ <;> decide

/-- C4 (amended): the elements of a `properties_changed` params array are
tried in order; an element that is not handled does not prevent the
dispatch of the elements after it, but the first successfully handled
element ends the processing of the message — the remaining elements are not
dispatched. -/
theorem claim_C4_amended {σ : Type} (ctx : DeviceCtx σ) (s : DeviceState σ)
    (p : MqttParam) (rest : List MqttParam) :
    ((handle_mqtt_property_update ctx s p).2 = true →
      handle_message ctx s (.propertiesChanged (p :: rest)) =
        (handle_mqtt_property_update ctx s p).1) ∧
    ((handle_mqtt_property_update ctx s p).2 = false →
      handle_message ctx s (.propertiesChanged (p :: rest)) =
        handle_message ctx (handle_mqtt_property_update ctx s p).1
          (.propertiesChanged rest)) := by
  constructor
  · intro h
    simp [handle_message, handle_params_loop, h]
  · intro h
    simp [handle_message, handle_params_loop, h]

theorem claim_C4_amended_witness :
    handle_message ctx0 dev0 (.propertiesChanged [pBat, pStat]) =
      (handle_mqtt_property_update ctx0 dev0 pBat).1 :=
  (claim_C4_amended ctx0 dev0 pBat [pStat]).1 (by decide)

/-- Device state with a completed mission recorded and status 13. -/
def c5state : DeviceState Unit :=
  { dev0 with statusCode := 13, poseCoverage := { pose_init with missionCompleted := true } }

/-- As `c5state` but with stored status already 1 (mowing). -/
def c5stateOn : DeviceState Unit :=
  { dev0 with statusCode := 1, poseCoverage := { pose_init with missionCompleted := true } }

/-- C5 counterexample: a REST (`devices_list`) poll reporting
`latestStatus = 1` (mowing in progress) updates and notifies the status but
does not invoke `reset_mission_completion` — the pose-coverage completion
flag stays set, contradicting "regardless of which stream delivered the
status change". -/
theorem claim_C5_counterexample :
    (update_device_state_from_info ctx0 c5state ⟨none, none, some 1, none⟩).statusCode = 1 ∧
    ((update_device_state_from_info ctx0 c5state ⟨none, none, some 1, none⟩).notifications.map
        Prod.fst) = [STATUS_PROPERTY.name] ∧
    (update_device_state_from_info ctx0 c5state
        ⟨none, none, some 1, none⟩).poseCoverage.missionCompleted = true := by
  refine ⟨?_, ?_, ?_⟩ <;> decide

/-- C5 (amended): `reset_mission_completion` is invoked exactly when the
MQTT push stream delivers a status update whose integer value is 1 and
differs from the stored status; a repeated value 1 leaves the pose-coverage
state untouched, and the REST poll path never touches the pose-coverage
state at all. -/
theorem claim_C5_amended :
    (∀ (σ : Type) (ctx : DeviceCtx σ) (s : DeviceState σ) (val : JValue),
        toInt val = some 1 → s.statusCode ≠ 1 →
        ((handle_mqtt_property_update ctx s ⟨2, 1, some val⟩).1.poseCoverage.missionCompleted
            = false ∧
         (handle_mqtt_property_update ctx s ⟨2, 1, some val⟩).1.statusCode = 1 ∧
         (handle_mqtt_property_update ctx s ⟨2, 1, some val⟩).2 = true)) ∧
    (∀ (σ : Type) (ctx : DeviceCtx σ) (s : DeviceState σ) (val : JValue),
        toInt val = some 1 → s.statusCode = 1 →
        (handle_mqtt_property_update ctx s ⟨2, 1, some val⟩).1.poseCoverage
          = s.poseCoverage) ∧
    (∀ (σ : Type) (ctx : DeviceCtx σ) (s : DeviceState σ) (info : DeviceInfo),
        (update_device_state_from_info ctx s info).poseCoverage = s.poseCoverage) := by
  refine ⟨?_, ?_, ?_⟩
  · intro σ ctx s val hval hne
    have hb : BATTERY_PROPERTY.matches 2 1 = false := rfl
    have hs : STATUS_PROPERTY.matches 2 1 = true := rfl
    simp only [handle_mqtt_property_update, hb, hs, Bool.false_eq_true, if_false, if_true,
      hval, if_pos hne]
    exact ⟨rfl, rfl, trivial⟩
  · intro σ ctx s val hval heq
    have hb : BATTERY_PROPERTY.matches 2 1 = false := rfl
    have hs : STATUS_PROPERTY.matches 2 1 = true := rfl
    simp only [handle_mqtt_property_update, hb, hs, Bool.false_eq_true, if_false, if_true, hval]
    rw [if_neg (by simpa using heq)]
  · intro σ ctx s info
    obtain ⟨ver, batt, ls, mdl⟩ := info
    simp only [update_device_state_from_info]
    have h1 : (info_firmware_step s ver).poseCoverage = s.poseCoverage := by
      cases ver with
      | none => rfl
      | some v =>
        simp only [info_firmware_step]
        split_ifs <;> rfl
    have h2 : ∀ t t2 : DeviceState σ, info_battery_step t batt = some t2 →
        t2.poseCoverage = t.poseCoverage := by
      intro t t2 hbs
      cases batt with
      | none =>
        simp only [info_battery_step] at hbs
        obtain rfl := Option.some_injective _ hbs
        rfl
      | some bv =>
        simp only [info_battery_step] at hbs
        cases htv : toInt bv with
        | none => rw [htv] at hbs; exact absurd hbs (by simp)
        | some b =>
          rw [htv] at hbs
          obtain rfl := Option.some_injective _ hbs
          split_ifs <;> rfl
    have h3 : ∀ t : DeviceState σ, (info_status_step t ls).poseCoverage = t.poseCoverage := by
      intro t
      cases ls with
      | none => rfl
      | some c =>
        simp only [info_status_step]
        split_ifs <;> rfl
    have h4 : ∀ t : DeviceState σ, (info_model_step ctx t mdl).poseCoverage = t.poseCoverage := by
      intro t
      cases mdl <;> rfl
    cases hbs : info_battery_step (info_firmware_step s ver) batt with
    | none => exact h1
    | some s2 => rw [h4, h3, h2 _ _ hbs, h1]

theorem claim_C5_amended_witness :
    ((handle_mqtt_property_update ctx0 c5state pStat).1.poseCoverage.missionCompleted = false ∧
      (handle_mqtt_property_update ctx0 c5state pStat).1.statusCode = 1 ∧
      (handle_mqtt_property_update ctx0 c5state pStat).2 = true) ∧
    ((handle_mqtt_property_update ctx0 c5stateOn pStat).1.poseCoverage
        = c5stateOn.poseCoverage) ∧
    ((update_device_state_from_info ctx0 c5state
        ⟨none, none, some 1, none⟩).poseCoverage = c5state.poseCoverage) :=
  ⟨claim_C5_amended.1 Unit ctx0 c5state (.jint 1) rfl (by decide),
   claim_C5_amended.2.1 Unit ctx0 c5stateOn (.jint 1) rfl rfl,
   claim_C5_amended.2.2 Unit ctx0 c5state ⟨none, none, some 1, none⟩⟩

end DreameMower
